import Mathlib

/-!
Shallow embedding of `app.py`, a Flask service that receives a CSV upload,
computes descriptive statistics with pandas and renders diagnostic charts
with matplotlib/seaborn.

Modelling conventions:
* a table cell is `Option String`; `none` models a missing value (NaN);
* each column carries the dtype pandas `read_csv` inferred for it
  (`int64`/`float64` → `numeric`, strings → `object`, `True`/`False`
  columns → `boolean`; `category` only arises from explicit casts but is
  named by `select_dtypes` in the code, so it is kept in the model);
* the fallible plotting layer (seaborn/matplotlib/`fig.savefig`) and the
  opaque HTML/text formatting (`DataFrame.to_html`, `DataFrame.info`) are
  a `RenderOracle` parameter: the decision logic around them is embedded
  exactly, the pixel/markup output is abstract;
* `DataFrame.describe(include=...)` raises `ValueError` ("No objects to
  concatenate") when the `include` selection matches no column; this is
  embedded in `describe_numericas` / `describe_categoricas`;
* `Series.value_counts()` returns the distinct values sorted by
  descending count; pandas leaves the relative order of equal counts
  unspecified, and the model resolves ties by first-encounter order
  (a stable sort over the first-encounter key list).
-/

namespace AnalisisCsv

open List

/-- A table cell; `none` models a missing value (NaN). -/
abbrev Cell := Option String

/-- Column dtype as inferred by pandas `read_csv` (plus `category`, which
`select_dtypes` with the object/category include list also names). -/
inductive Dtype
  | numeric
  | object
  | category
  | boolean
deriving DecidableEq, Repr

/-- One named column of the parsed table. -/
structure Column where
  name : String
  dtype : Dtype
  cells : List Cell
deriving DecidableEq, Repr

/-- The parsed table (`df = pd.read_csv(...)`): `nrows = df.shape[0]`. -/
structure DataFrame where
  nrows : Nat
  cols : List Column
deriving DecidableEq, Repr

/-- Rectangularity: every column has exactly `nrows` cells
(`read_csv` always produces a rectangular frame). -/
def DataFrame.Rect (df : DataFrame) : Prop :=
  ∀ c ∈ df.cols, c.cells.length = df.nrows

/-- Embedding of `df.select_dtypes(include=np.number).columns`
(as the list of selected columns, in original column order). -/
def selectNumeric (df : DataFrame) : List Column :=
  df.cols.filter fun c => c.dtype == .numeric

/-- Embedding of `df.select_dtypes` with the object/category include list.
Note that `boolean` columns belong to neither selection. -/
def selectObjectCategory (df : DataFrame) : List Column :=
  df.cols.filter fun c => c.dtype == .object || c.dtype == .category

/-- Missing-value count of one column (`df[col].isnull().sum()`). -/
def Column.nullCount (c : Column) : Nat := c.cells.countP fun x => x.isNone

/-- Embedding of `df.isnull().sum().sum()`. -/
def DataFrame.totalNulls (df : DataFrame) : Nat :=
  (df.cols.map Column.nullCount).sum

/-- The non-missing values of a column, in row order. -/
def Column.nonNullValues (c : Column) : List String := c.cells.filterMap id

/-- Worker for `uniqueFirst`: keeps the first occurrence of each element
not yet in `seen`. -/
def uniqueFirstAux (seen : List String) : List String → List String
  | [] => []
  | x :: xs => if x ∈ seen then uniqueFirstAux seen xs
    else x :: uniqueFirstAux (x :: seen) xs

/-- Distinct elements in first-encounter order (pandas `unique`). -/
def uniqueFirst (l : List String) : List String := uniqueFirstAux [] l

/-- Distinct non-missing values of a column, in first-encounter order. -/
def Column.distinctValues (c : Column) : List String :=
  uniqueFirst c.nonNullValues

/-- Embedding of `df[col].nunique()` (missing values not counted). -/
def Column.nunique (c : Column) : Nat := c.distinctValues.length

/-- Number of occurrences of value `v` in column `c`. -/
def Column.freq (c : Column) (v : String) : Nat := c.nonNullValues.count v

/-- Insertion step of a stable descending sort by `c.freq`: `v` is placed
before the first element whose count does not exceed the count of `v`. -/
def insertByFreq (c : Column) (v : String) : List String → List String
  | [] => [v]
  | w :: ws => if c.freq w ≤ c.freq v then v :: w :: ws else w :: insertByFreq c v ws

/-- Stable insertion sort by descending `c.freq`: elements with equal
counts keep their input order. -/
def sortByFreqDesc (c : Column) : List String → List String
  | [] => []
  | v :: vs => insertByFreq c v (sortByFreqDesc c vs)

/-- Embedding of `df[col].value_counts().index`: the distinct values sorted
by descending count.  Ties are resolved stably over the first-encounter
order (see the module docstring for this modelling choice). -/
def Column.valueCountsIndex (c : Column) : List String :=
  sortByFreqDesc c c.distinctValues

/-- Row `i` of the frame, as the list of its cells in column order. -/
def DataFrame.row (df : DataFrame) (i : Nat) : List Cell :=
  df.cols.map fun c => c.cells.getD i none

/-- All rows of the frame, in order. -/
def DataFrame.rows (df : DataFrame) : List (List Cell) :=
  (List.range df.nrows).map df.row

/-- Embedding of `df.duplicated()` (keeping first occurrences): one Bool per row,
`true` iff the row equals some earlier row.  `seen` accumulates the rows
already scanned (pandas compares NaN equal to NaN here, as does `= ` on
`Option`). -/
def dupMarks : List (List Cell) → List (List Cell) → List Bool
  | _, [] => []
  | seen, r :: rest => decide (r ∈ seen) :: dupMarks (r :: seen) rest

/-- Embedding of `int(df.duplicated().sum())` over an explicit row list. -/
def duplicatedSum (rs : List (List Cell)) : Nat := (dupMarks [] rs).count true

/-- `num_duplicados` as computed by `upload_file` (line 151). -/
def DataFrame.numDuplicados (df : DataFrame) : Nat := duplicatedSum df.rows

/-- Content of the correlation heatmap: the columns of
`df.select_dtypes(include=np.number).corr()`. -/
structure CorrSpec where
  cols : List String
deriving DecidableEq, Repr

/-- Content of the numeric-distribution figure: the plotted column names,
the subplot grid, and how many trailing grid cells are hidden. -/
structure HistSpec where
  plots : List String
  nRows : Nat
  nCols : Nat
  hidden : Nat
deriving DecidableEq, Repr

/-- Content of the categorical-distribution figure: per plotted column its
name and the ordered category list passed to `sns.countplot(order=...)`,
plus the subplot grid and the hidden-cell count. -/
structure BarSpec where
  plots : List (String × List String)
  nRows : Nat
  nCols : Nat
  hidden : Nat
deriving DecidableEq, Repr

/-- Pure content of `generar_heatmap_correlacion` (lines 41-48):
`None` when fewer than 2 numeric columns exist, otherwise a grid over
exactly the numeric columns. -/
def correlacionSpec (df : DataFrame) : Option CorrSpec :=
  let numericCols := selectNumeric df
  if numericCols.length < 2 then none
  else some { cols := numericCols.map Column.name }

/-- Pure content of `generar_histogramas_numericos` (lines 57-76):
`None` when no numeric column exists; otherwise the first 9 numeric
columns on a 3-column grid, trailing cells hidden. -/
def histogramasSpec (df : DataFrame) : Option HistSpec :=
  let numericCols := (selectNumeric df).map Column.name
  if numericCols.length = 0 then none
  else
    let toPlot := numericCols.take 9
    let n := toPlot.length
    let nRows := (n - 1) / 3 + 1
    some { plots := toPlot, nRows := nRows, nCols := 3, hidden := nRows * 3 - n }

/-- Pure content of `generar_barras_categoricas` (lines 88-112):
object/category columns with fewer than 20 distinct values, the first 6 of
them on a 2-column grid; each subplot shows `value_counts().index[:10]`. -/
def barrasSpec (df : DataFrame) : Option BarSpec :=
  let categoricalCols := selectObjectCategory df
  let suitable := categoricalCols.filter fun c => decide (c.nunique < 20)
  if suitable.length = 0 then none
  else
    let colsToPlot := suitable.take 6
    let n := colsToPlot.length
    let nRows := (n - 1) / 2 + 1
    some { plots := colsToPlot.map fun c => (c.name, c.valueCountsIndex.take 10),
           nRows := nRows, nCols := 2, hidden := nRows * 2 - n }

/-- The fallible rendering/formatting layer (matplotlib, seaborn,
`savefig`, `to_html`, `df.info`), abstracted: each renderer either
produces an encoded image string or fails with an exception message. -/
structure RenderOracle where
  nulos : DataFrame → Except String String
  correlacion : CorrSpec → Except String String
  histogramas : HistSpec → Except String String
  barras : BarSpec → Except String String
  infoText : DataFrame → String
  descNumHtml : DataFrame → String
  descCatHtml : DataFrame → String

/-- The `try ... except: return None` wrapper each chart function uses. -/
def exceptToOption : Except String String → Option String
  | .ok s => some s
  | .error _ => none

/-- Embedding of `generar_heatmap_nulos` (lines 25-36). -/
def generar_heatmap_nulos (r : RenderOracle) (df : DataFrame) : Option String :=
  if df.totalNulls = 0 then none
  else exceptToOption (r.nulos df)

/-- Embedding of `generar_heatmap_correlacion` (lines 38-52). -/
def generar_heatmap_correlacion (r : RenderOracle) (df : DataFrame) : Option String :=
  match correlacionSpec df with
  | none => none
  | some s => exceptToOption (r.correlacion s)

/-- Embedding of `generar_histogramas_numericos` (lines 54-83). -/
def generar_histogramas_numericos (r : RenderOracle) (df : DataFrame) : Option String :=
  match histogramasSpec df with
  | none => none
  | some s => exceptToOption (r.histogramas s)

/-- Embedding of `generar_barras_categoricas` (lines 85-119). -/
def generar_barras_categoricas (r : RenderOracle) (df : DataFrame) : Option String :=
  match barrasSpec df with
  | none => none
  | some s => exceptToOption (r.barras s)

/-- Embedding of line 154, `df.describe` over the numeric columns plus `to_html`.
pandas raises `ValueError: No objects to concatenate` when the frame has
no numeric column. -/
def describe_numericas (r : RenderOracle) (df : DataFrame) : Except String String :=
  if (selectNumeric df).isEmpty then .error "No objects to concatenate"
  else .ok (r.descNumHtml df)

/-- Embedding of line 155, `df.describe` over the object/category columns:
raises when the frame has no object/category column. -/
def describe_categoricas (r : RenderOracle) (df : DataFrame) : Except String String :=
  if (selectObjectCategory df).isEmpty then .error "No objects to concatenate"
  else .ok (r.descCatHtml df)

/-- Embedding of `df.select_dtypes(...).empty`: a frame is empty when one
of its axes has length 0. -/
def subEmpty (cols : List Column) (df : DataFrame) : Bool :=
  cols.isEmpty || df.nrows == 0

/-- The JSON payload of a successful upload (lines 165-174). -/
structure OkPayload where
  nombre_archivo : String
  num_filas : Nat
  num_columnas : Nat
  info_columnas : String
  num_duplicados : Nat
  desc_numericas : String
  desc_categoricas : String
  graficas : List (String × Option String)
deriving DecidableEq, Repr

/-- The JSON response of the `/upload` route: either `{'error': msg}` or
the statistics payload. -/
inductive UploadResponse
  | error (msg : String)
  | ok (payload : OkPayload)
deriving DecidableEq, Repr

/-- The `graficas` dict literal (lines 158-163): all four keys are always
present; a missing/failed chart is a `none` value, never a missing key. -/
def graficas (r : RenderOracle) (df : DataFrame) : List (String × Option String) :=
  [("null_heatmap", generar_heatmap_nulos r df),
   ("correlation_heatmap", generar_heatmap_correlacion r df),
   ("numeric_distributions", generar_histogramas_numericos r df),
   ("categorical_distributions", generar_barras_categoricas r df)]

/-- Embedding of the `try` body of `upload_file` after a successful parse
(lines 142-177).  The two `describe` calls are the only statements in it
that can raise; an exception is caught by the outer handler and turned
into a single request-level error message. -/
def process_csv (r : RenderOracle) (filename : String) (df : DataFrame) : UploadResponse :=
  match describe_numericas r df with
  | .error e => .error ("Hubo un error al procesar el archivo: " ++ e)
  | .ok descNum =>
    match describe_categoricas r df with
    | .error e => .error ("Hubo un error al procesar el archivo: " ++ e)
    | .ok descCat =>
      .ok { nombre_archivo := filename
            num_filas := df.nrows
            num_columnas := df.cols.length
            info_columnas := r.infoText df
            num_duplicados := df.numDuplicados
            desc_numericas :=
              if subEmpty (selectNumeric df) df then "<p>No hay columnas numéricas.</p>"
              else descNum
            desc_categoricas :=
              if subEmpty (selectObjectCategory df) df then "<p>No hay columnas categóricas.</p>"
              else descCat
            graficas := graficas r df }

/-- An `/upload` POST request: whether a `file` part is present, the
submitted filename, and the outcome of `pd.read_csv` on the file bytes
(the parser is abstract; `error` models a raised parse exception). -/
structure UploadRequest where
  hasFilePart : Bool
  filename : String
  parsed : Except String DataFrame

/-- Embedding of the Python suffix test `filename.endswith` for ".csv",
on the character list. -/
def endsWithCsv (s : String) : Bool := ".csv".data.isSuffixOf s.data

/-- Embedding of the `upload_file` route (lines 128-179). -/
def upload_file (r : RenderOracle) (req : UploadRequest) : UploadResponse :=
  if !req.hasFilePart then .error "No se encontró el archivo"
  else if req.filename = "" then .error "No se seleccionó ningún archivo"
  else if endsWithCsv req.filename then
    match req.parsed with
    | .error e => .error ("Hubo un error al procesar el archivo: " ++ e)
    | .ok df => process_csv r req.filename df
  else .error "Formato de archivo no válido. Por favor, sube un archivo .csv"

/-- Specification-side count of duplicate rows: the number of indices `i`
whose row already occurs among the earlier rows `rs.take i` (so the first
occurrence of each row is not counted). -/
def dupSpecCount (rs : List (List Cell)) : Nat :=
  (List.range rs.length).countP fun i => decide (rs.getD i [] ∈ rs.take i)

/-- A column the categorical chart actually renders: object/category
dtype with fewer than 20 distinct values. -/
def eligible (c : Column) : Bool :=
  (c.dtype == .object || c.dtype == .category) && decide (c.nunique < 20)

/-- The eligible columns of a frame, in original column order. -/
def eligibleCols (df : DataFrame) : List Column := df.cols.filter eligible

/-- A rendering layer in which every drawing/formatting call succeeds. -/
def trivialOracle : RenderOracle where
  nulos := fun _ => .ok "imgN"
  correlacion := fun _ => .ok "imgC"
  histogramas := fun _ => .ok "imgH"
  barras := fun _ => .ok "imgB"
  infoText := fun _ => "info"
  descNumHtml := fun _ => "numHtml"
  descCatHtml := fun _ => "catHtml"

/-- A rendering layer whose null-heatmap drawing call raises. -/
def failNulosOracle : RenderOracle :=
  { trivialOracle with nulos := fun _ => .error "matplotlib" }

/-- A 3-row frame with one numeric column (one missing value) and one
object column; parseable from `"edad,ciudad\n1,GDL\n2,CDMX\n,GDL\n"`. -/
def dfMixed : DataFrame where
  nrows := 3
  cols :=
    [{ name := "edad", dtype := .numeric, cells := [some "1", some "2", none] },
     { name := "ciudad", dtype := .object, cells := [some "GDL", some "CDMX", some "GDL"] }]

/-- A frame with zero numeric columns; parseable from `"a,b\nx,y\n"`. -/
def dfNoNumeric : DataFrame where
  nrows := 1
  cols :=
    [{ name := "a", dtype := .object, cells := [some "x"] },
     { name := "b", dtype := .object, cells := [some "y"] }]

/-- A frame whose columns are all numeric; parseable from
`"x,y\n1,2\n3,4\n"`. -/
def dfAllNumeric : DataFrame where
  nrows := 2
  cols :=
    [{ name := "x", dtype := .numeric, cells := [some "1", some "3"] },
     { name := "y", dtype := .numeric, cells := [some "2", some "4"] }]

/-- A boolean column with two distinct values: non-numeric, fewer than 20
distinct values, yet not selected by
the object/category `select_dtypes` selection. -/
def boolCol : Column where
  name := "activo"
  dtype := .boolean
  cells := [some "True", some "False"]

/-- A frame with `boolCol` as its only column; `read_csv` infers dtype
`bool` for `"activo\nTrue\nFalse\n"`. -/
def dfBool : DataFrame where
  nrows := 2
  cols := [boolCol]

/-- A frame with two object columns, including a frequency tie in
`talla`. -/
def dfCats : DataFrame where
  nrows := 3
  cols :=
    [{ name := "color", dtype := .object, cells := [some "rojo", some "azul", some "rojo"] },
     { name := "talla", dtype := .object, cells := [some "S", some "M", none] }]

/-- The payload `process_csv trivialOracle "datos.csv" dfMixed` produces. -/
def payloadW : OkPayload where
  nombre_archivo := "datos.csv"
  num_filas := dfMixed.nrows
  num_columnas := dfMixed.cols.length
  info_columnas := "info"
  num_duplicados := dfMixed.numDuplicados
  desc_numericas := "numHtml"
  desc_categoricas := "catHtml"
  graficas := graficas trivialOracle dfMixed

/-!  Theorems.  -/

/-- C1: on a parsed table with zero numeric columns the upload does NOT
succeed with the placeholder numeric-stats field: on line 154
`df.describe` over the (empty) numeric columns raises `ValueError` ("No objects to
concatenate"), the outer handler catches it, and the whole request
degrades to a single error response; the placeholder branch of line 171
is unreachable for such tables. -/
theorem upload_no_numeric_errors (r : RenderOracle) :
    selectNumeric dfNoNumeric = [] ∧
    upload_file r { hasFilePart := true, filename := "datos.csv", parsed := .ok dfNoNumeric } =
      .error "Hubo un error al procesar el archivo: No objects to concatenate" :=
  ⟨rfl, rfl⟩

/-- C9: the reported row/column counts are `df.shape` whenever a payload
is produced at all, but on a valid all-numeric table (2 rows, 2 columns)
line 155, `df.describe` over the (empty) object/category columns, raises, so the
response is a request-level error and no counts are reported. -/
theorem upload_all_numeric_errors (r : RenderOracle) :
    dfAllNumeric.nrows = 2 ∧ dfAllNumeric.cols.length = 2 ∧
    selectObjectCategory dfAllNumeric = [] ∧
    upload_file r { hasFilePart := true, filename := "datos.csv", parsed := .ok dfAllNumeric } =
      .error "Hubo un error al procesar el archivo: No objects to concatenate" ∧
    ∀ (fn : String) (df : DataFrame),
      (match process_csv r fn df with
       | .ok p => p.num_filas = df.nrows ∧ p.num_columnas = df.cols.length
       | .error _ => True) := by
  refine ⟨rfl, rfl, rfl, rfl, ?_⟩
  intro fn df
  rw [process_csv]
  rcases describe_numericas r df with e | dn
  · exact trivial
  · rcases describe_categoricas r df with e | dc
    · exact trivial
    · exact ⟨rfl, rfl⟩

/-- C8: a missing file part, an empty filename, or a filename without the
`.csv` suffix short-circuits `upload_file` with the corresponding
user-facing error message, before the file content is ever parsed: the
response carries no statistics fields and is independent of both the
parser outcome and the rendering layer. -/
theorem upload_rejects_invalid_requests (r r' : RenderOracle) (req : UploadRequest)
    (p p' : Except String DataFrame)
    (h : req.hasFilePart = false ∨ req.filename = "" ∨ endsWithCsv req.filename = false) :
    upload_file r req =
      .error (if req.hasFilePart = false then "No se encontró el archivo"
        else if req.filename = "" then "No se seleccionó ningún archivo"
        else "Formato de archivo no válido. Por favor, sube un archivo .csv") ∧
    upload_file r { req with parsed := p } = upload_file r' { req with parsed := p' } := by
  obtain ⟨hf, fn, pr⟩ := req
  by_cases h1 : hf = false
  · subst h1
    simp [upload_file]
  · have h1' : hf = true := by cases hf <;> simp_all
    subst h1'
    by_cases h2 : fn = ""
    · subst h2
      simp [upload_file]
    · have h3 : endsWithCsv fn = false := by
        rcases h with h | h | h
        · exact absurd h (by simp)
        · exact absurd h h2
        · exact h
      simp [upload_file, h2, h3]

/-- C8 witness: a `.txt` filename is rejected with the invalid-format
message. -/
theorem upload_rejects_invalid_requests_witness :
    upload_file trivialOracle { hasFilePart := true, filename := "datos.txt", parsed := .error "x" } =
      .error "Formato de archivo no válido. Por favor, sube un archivo .csv" := by
  have h := upload_rejects_invalid_requests trivialOracle trivialOracle
    { hasFilePart := true, filename := "datos.txt", parsed := .error "x" } (.error "x") (.error "x")
    (Or.inr (Or.inr (by decide)))
  simpa using h.1

/-- Helper: a successful response of `upload_file` always comes out of
`process_csv`, with the chart mapping of the parsed frame. -/
theorem upload_ok_graficas (r : RenderOracle) (req : UploadRequest) (p : OkPayload)
    (h : upload_file r req = .ok p) : ∃ df, p.graficas = graficas r df := by
  rw [upload_file] at h
  by_cases h1 : (!req.hasFilePart) = true
  · rw [if_pos h1] at h
    exact absurd h (by simp)
  · rw [if_neg h1] at h
    by_cases h2 : req.filename = ""
    · rw [if_pos h2] at h
      exact absurd h (by simp)
    · rw [if_neg h2] at h
      by_cases h3 : endsWithCsv req.filename = true
      · rw [if_pos h3] at h
        rcases hp : req.parsed with e | df
        · rw [hp] at h
          exact absurd h (by simp)
        · rw [hp] at h
          refine ⟨df, ?_⟩
          have h' : process_csv r req.filename df = UploadResponse.ok p := h
          rw [process_csv] at h'
          rcases hd1 : describe_numericas r df with e | dn
          · rw [hd1] at h'
            exact absurd h' (by simp)
          · rw [hd1] at h'
            rcases hd2 : describe_categoricas r df with e | dc
            · rw [hd2] at h'
              exact absurd h' (by simp)
            · rw [hd2] at h'
              simp only [UploadResponse.ok.injEq] at h'
              rw [← h']
      · rw [if_neg h3] at h
        exact absurd h (by simp)

/-- C10: every successful upload response carries exactly the four chart
keys of the dict literal, in order; a not-applicable or failed chart is a
`none` value under its key, never a missing key. -/
theorem graficas_keys_fixed (r : RenderOracle) (req : UploadRequest) (p : OkPayload)
    (h : upload_file r req = .ok p) :
    p.graficas.map Prod.fst =
      ["null_heatmap", "correlation_heatmap", "numeric_distributions", "categorical_distributions"] ∧
    ∀ k ∈ (["null_heatmap", "correlation_heatmap", "numeric_distributions",
            "categorical_distributions"] : List String),
      ∃ v : Option String, p.graficas.lookup k = some v := by
  obtain ⟨df, hdf⟩ := upload_ok_graficas r req p h
  constructor
  · rw [hdf]; rfl
  · intro k hk
    rw [hdf]
    rcases List.mem_cons.mp hk with h1 | hk
    · subst h1; exact ⟨_, rfl⟩
    rcases List.mem_cons.mp hk with h1 | hk
    · subst h1; exact ⟨_, rfl⟩
    rcases List.mem_cons.mp hk with h1 | hk
    · subst h1; exact ⟨_, rfl⟩
    rcases List.mem_cons.mp hk with h1 | hk
    · subst h1; exact ⟨_, rfl⟩
    · exact absurd hk (by simp)

/-- C10 witness: the successful upload of `dfMixed` yields exactly the
four chart keys. -/
theorem graficas_keys_fixed_witness :
    payloadW.graficas.map Prod.fst =
      ["null_heatmap", "correlation_heatmap", "numeric_distributions", "categorical_distributions"] :=
  (graficas_keys_fixed trivialOracle
    { hasFilePart := true, filename := "datos.csv", parsed := .ok dfMixed } payloadW rfl).1

/-- C5: the numeric-distribution figure exists iff at least one numeric
column does; it plots the first (at most) 9 numeric columns in original
column order on a 3-column grid and hides exactly the unused trailing
grid cells. -/
theorem histogramas_first_nine (df : DataFrame) :
    (histogramasSpec df = none ↔ selectNumeric df = []) ∧
    (∀ s, histogramasSpec df = some s →
      s.plots = ((selectNumeric df).map Column.name).take 9 ∧
      s.plots.length = min (selectNumeric df).length 9 ∧
      s.plots.length ≤ 9 ∧
      s.nCols = 3 ∧
      s.nRows = (s.plots.length - 1) / 3 + 1 ∧
      s.hidden = s.nRows * s.nCols - s.plots.length ∧
      s.plots.length + s.hidden = s.nRows * s.nCols) ∧
    ∀ r, selectNumeric df = [] → generar_histogramas_numericos r df = none := by
  by_cases h0 : ((selectNumeric df).map Column.name).length = 0
  · have hnil : selectNumeric df = [] :=
      List.length_eq_zero.mp (by simpa using h0)
    have hn : histogramasSpec df = none := by
      rw [histogramasSpec, if_pos h0]
    refine ⟨⟨fun _ => hnil, fun _ => hn⟩, ?_, ?_⟩
    · intro s hs
      rw [hn] at hs
      cases hs
    · intro r _
      rw [generar_histogramas_numericos, hn]
  · have hlen : 1 ≤ (selectNumeric df).length := by
      simp only [List.length_map] at h0
      omega
    have hs : histogramasSpec df =
        some { plots := ((selectNumeric df).map Column.name).take 9,
               nRows := ((((selectNumeric df).map Column.name).take 9).length - 1) / 3 + 1,
               nCols := 3,
               hidden := (((((selectNumeric df).map Column.name).take 9).length - 1) / 3 + 1) * 3
                 - (((selectNumeric df).map Column.name).take 9).length } := by
      rw [histogramasSpec, if_neg h0]
    have hl : (((selectNumeric df).map Column.name).take 9).length =
        min (selectNumeric df).length 9 := by
      simp [List.length_take, Nat.min_comm]
    refine ⟨⟨fun hcon => ?_, fun hcon => absurd (congrArg List.length hcon) (by simpa using h0)⟩,
      ?_, ?_⟩
    · rw [hs] at hcon
      cases hcon
    · intro s hss
      rw [hs] at hss
      cases hss
      refine ⟨rfl, hl, ?_, rfl, rfl, rfl, ?_⟩
      · dsimp only
        rw [hl]
        omega
      · dsimp only
        omega
    · intro r hcon
      exact absurd (congrArg List.length hcon) (by simpa using h0)

/-- C5 witness: `dfMixed` has one numeric column, plotted alone on a
1×3 grid with two hidden cells. -/
theorem histogramas_first_nine_witness :
    histogramasSpec dfMixed = some { plots := ["edad"], nRows := 1, nCols := 3, hidden := 2 } ∧
    (["edad"] : List String) = ((selectNumeric dfMixed).map Column.name).take 9 :=
  ⟨rfl, ((histogramas_first_nine dfMixed).2.1 _ rfl).1⟩

/-- C6: the missingness chart is suppressed exactly on tables with zero
missing cells: zero nulls force absence, and with at least one null the
chart is present whenever the drawing call itself succeeds. -/
theorem null_heatmap_iff_missing (r : RenderOracle) (df : DataFrame) :
    (df.totalNulls = 0 → generar_heatmap_nulos r df = none) ∧
    (0 < df.totalNulls → ∀ img, r.nulos df = .ok img →
      generar_heatmap_nulos r df = some img) := by
  constructor
  · intro h
    simp [generar_heatmap_nulos, h]
  · intro h img himg
    have hne : df.totalNulls ≠ 0 := Nat.pos_iff_ne_zero.mp h
    simp [generar_heatmap_nulos, hne, himg, exceptToOption]

/-- C6 witness: `dfMixed` has one missing cell and a present chart. -/
theorem null_heatmap_iff_missing_witness :
    generar_heatmap_nulos trivialOracle dfMixed = some "imgN" :=
  (null_heatmap_iff_missing trivialOracle dfMixed).2 (by decide) "imgN" rfl

/-- C7: the correlation chart is absent for fewer than 2 numeric columns;
with 2 or more it is a grid over exactly the numeric columns (in column
order), present whenever the drawing call itself succeeds. -/
theorem correlacion_two_numeric (r : RenderOracle) (df : DataFrame) :
    ((selectNumeric df).length < 2 →
      correlacionSpec df = none ∧ generar_heatmap_correlacion r df = none) ∧
    (2 ≤ (selectNumeric df).length →
      correlacionSpec df = some { cols := (selectNumeric df).map Column.name } ∧
      ∀ img, r.correlacion { cols := (selectNumeric df).map Column.name } = .ok img →
        generar_heatmap_correlacion r df = some img) := by
  constructor
  · intro h
    have hs : correlacionSpec df = none := by unfold correlacionSpec; simp [h]
    exact ⟨hs, by unfold generar_heatmap_correlacion; rw [hs]⟩
  · intro h
    have hs : correlacionSpec df = some { cols := (selectNumeric df).map Column.name } := by
      unfold correlacionSpec
      simp [Nat.not_lt.mpr h]
    refine ⟨hs, fun img himg => ?_⟩
    unfold generar_heatmap_correlacion
    rw [hs]
    show exceptToOption (r.correlacion { cols := (selectNumeric df).map Column.name }) = some img
    rw [himg]
    rfl

/-- C7 witness: `dfAllNumeric` has two numeric columns and a present
correlation grid over exactly those columns. -/
theorem correlacion_two_numeric_witness :
    correlacionSpec dfAllNumeric = some { cols := ["x", "y"] } ∧
    generar_heatmap_correlacion trivialOracle dfAllNumeric = some "imgC" :=
  ⟨((correlacion_two_numeric trivialOracle dfAllNumeric).2 (by decide)).1,
   ((correlacion_two_numeric trivialOracle dfAllNumeric).2 (by decide)).2 "imgC" rfl⟩

/-- C2: chart-rendering failures are isolated.  A renderer that raises
degrades its own slot to `none`; whether the request fails, and every
statistics field of a successful payload, are unaffected by the chart
renderers; and each chart slot depends only on its own renderer. -/
theorem chart_errors_isolated (r r' : RenderOracle) (df : DataFrame) (fn : String)
    (hinfo : r.infoText df = r'.infoText df)
    (hdn : r.descNumHtml df = r'.descNumHtml df)
    (hdc : r.descCatHtml df = r'.descCatHtml df) :
    ((∀ e, r.nulos df = .error e → generar_heatmap_nulos r df = none) ∧
     (∀ s e, correlacionSpec df = some s → r.correlacion s = .error e →
       generar_heatmap_correlacion r df = none) ∧
     (∀ s e, histogramasSpec df = some s → r.histogramas s = .error e →
       generar_histogramas_numericos r df = none) ∧
     (∀ s e, barrasSpec df = some s → r.barras s = .error e →
       generar_barras_categoricas r df = none)) ∧
    (∀ m, process_csv r fn df = .error m ↔ process_csv r' fn df = .error m) ∧
    (∀ p p', process_csv r fn df = .ok p → process_csv r' fn df = .ok p' →
      p.nombre_archivo = p'.nombre_archivo ∧
      p.num_filas = p'.num_filas ∧
      p.num_columnas = p'.num_columnas ∧
      p.info_columnas = p'.info_columnas ∧
      p.num_duplicados = p'.num_duplicados ∧
      p.desc_numericas = p'.desc_numericas ∧
      p.desc_categoricas = p'.desc_categoricas ∧
      p.graficas = graficas r df ∧ p'.graficas = graficas r' df) ∧
    ((r.nulos df = r'.nulos df →
       generar_heatmap_nulos r df = generar_heatmap_nulos r' df) ∧
     ((∀ s, r.correlacion s = r'.correlacion s) →
       generar_heatmap_correlacion r df = generar_heatmap_correlacion r' df) ∧
     ((∀ s, r.histogramas s = r'.histogramas s) →
       generar_histogramas_numericos r df = generar_histogramas_numericos r' df) ∧
     ((∀ s, r.barras s = r'.barras s) →
       generar_barras_categoricas r df = generar_barras_categoricas r' df)) := by
  have hdn' : describe_numericas r df = describe_numericas r' df := by
    unfold describe_numericas
    rw [hdn]
  have hdc' : describe_categoricas r df = describe_categoricas r' df := by
    unfold describe_categoricas
    rw [hdc]
  refine ⟨⟨?_, ?_, ?_, ?_⟩, ?_, ?_, ?_, ?_, ?_, ?_⟩
  · intro e he
    by_cases h0 : df.totalNulls = 0
    · simp [generar_heatmap_nulos, h0]
    · simp [generar_heatmap_nulos, h0, he, exceptToOption]
  · intro s e hs he
    unfold generar_heatmap_correlacion
    rw [hs]
    show exceptToOption (r.correlacion s) = none
    rw [he]
    rfl
  · intro s e hs he
    unfold generar_histogramas_numericos
    rw [hs]
    show exceptToOption (r.histogramas s) = none
    rw [he]
    rfl
  · intro s e hs he
    unfold generar_barras_categoricas
    rw [hs]
    show exceptToOption (r.barras s) = none
    rw [he]
    rfl
  · intro m
    unfold process_csv
    rw [← hdn', ← hdc']
    rcases describe_numericas r df with e | dn
    · exact Iff.rfl
    · rcases describe_categoricas r df with e | dc
      · exact Iff.rfl
      · simp
  · intro p p' hp hp'
    unfold process_csv at hp hp'
    rw [← hdn', ← hdc'] at hp'
    rcases hd1 : describe_numericas r df with e | dn <;> rw [hd1] at hp hp'
    · exact absurd hp (by simp)
    · rcases hd2 : describe_categoricas r df with e | dc <;> rw [hd2] at hp hp'
      · exact absurd hp (by simp)
      · simp only [UploadResponse.ok.injEq] at hp hp'
        subst hp
        subst hp'
        exact ⟨rfl, rfl, rfl, hinfo, rfl, rfl, rfl, rfl, rfl⟩
  · intro he
    unfold generar_heatmap_nulos
    rw [he]
  · intro he
    unfold generar_heatmap_correlacion
    rcases correlacionSpec df with _ | s
    · rfl
    · show exceptToOption (r.correlacion s) = exceptToOption (r'.correlacion s)
      rw [he s]
  · intro he
    unfold generar_histogramas_numericos
    rcases histogramasSpec df with _ | s
    · rfl
    · show exceptToOption (r.histogramas s) = exceptToOption (r'.histogramas s)
      rw [he s]
  · intro he
    unfold generar_barras_categoricas
    rcases barrasSpec df with _ | s
    · rfl
    · show exceptToOption (r.barras s) = exceptToOption (r'.barras s)
      rw [he s]

/-- C2 witness: when the null-heatmap renderer raises on `dfMixed`, the
null-heatmap slot degrades to `none`. -/
theorem chart_errors_isolated_witness :
    generar_heatmap_nulos failNulosOracle dfMixed = none :=
  (chart_errors_isolated failNulosOracle trivialOracle dfMixed "datos.csv"
    rfl rfl rfl).1.1 "matplotlib" rfl

/-- Helper: `dupMarks seen rs` marks exactly the indices whose row occurs
among `seen` or among the earlier rows of `rs`. -/
theorem dupMarks_count (rs : List (List Cell)) :
    ∀ seen, (dupMarks seen rs).count true =
      (List.range rs.length).countP fun i => decide (rs.getD i [] ∈ seen ++ rs.take i) := by
  induction rs with
  | nil => intro seen; rfl
  | cons r rest ih =>
    intro seen
    rw [dupMarks, List.count_cons, ih (r :: seen), List.length_cons,
      List.range_succ_eq_map, List.countP_cons, List.countP_map]
    have h1 : (List.range rest.length).countP
          (fun i => decide (rest.getD i [] ∈ (r :: seen) ++ rest.take i)) =
        (List.range rest.length).countP
          ((fun i => decide ((r :: rest).getD i [] ∈ seen ++ (r :: rest).take i)) ∘ Nat.succ) := by
      apply List.countP_congr
      intro i _
      simp only [Function.comp, List.getD_cons_succ, List.take_succ_cons, decide_eq_true_eq,
        List.mem_append, List.mem_cons]
      tauto
    rw [h1]
    congr 1
    simp

/-- Helper: splitting `dupMarks` over an append; the scanned prefix joins
the seen set (reversed, which is irrelevant for membership). -/
theorem dupMarks_append (xs ys : List (List Cell)) :
    ∀ seen, dupMarks seen (xs ++ ys) =
      dupMarks seen xs ++ dupMarks (xs.reverse ++ seen) ys := by
  induction xs with
  | nil => intro seen; rfl
  | cons x xs ih =>
    intro seen
    simp only [List.cons_append, dupMarks, List.append_eq, ih (x :: seen), List.reverse_cons,
      List.append_assoc, List.singleton_append, List.nil_append]

/-- Helper: rows never seen before and pairwise distinct produce no marks. -/
theorem dupMarks_fresh (xs : List (List Cell)) :
    ∀ seen, xs.Nodup → (∀ x ∈ xs, x ∉ seen) →
      dupMarks seen xs = List.replicate xs.length false := by
  induction xs with
  | nil => intro seen _ _; rfl
  | cons x xs ih =>
    intro seen hnd hfresh
    rw [dupMarks, List.length_cons, List.replicate_succ]
    have h1 : decide (x ∈ seen) = false := by
      simpa using hfresh x (by simp)
    rw [h1, ih (x :: seen) (List.Nodup.of_cons hnd)]
    intro y hy
    simp only [List.mem_cons, not_or]
    exact ⟨fun hxy => (List.nodup_cons.mp hnd).1 (hxy ▸ hy), hfresh y (List.mem_cons_of_mem x hy)⟩

/-- Helper: rows that are all already seen are all marked. -/
theorem dupMarks_seen (ys : List (List Cell)) :
    ∀ seen, (∀ y ∈ ys, y ∈ seen) →
      dupMarks seen ys = List.replicate ys.length true := by
  induction ys with
  | nil => intro seen _; rfl
  | cons y ys ih =>
    intro seen hseen
    rw [dupMarks, List.length_cons, List.replicate_succ]
    have h1 : decide (y ∈ seen) = true := by
      simpa using hseen y (by simp)
    rw [h1, ih (y :: seen)]
    intro z hz
    exact List.mem_cons_of_mem y (hseen z (List.mem_cons_of_mem y hz))

/-- C3: the duplicate count of `df.duplicated().sum()` equals the number
of row indices whose row already occurs among the earlier rows (first
occurrences not counted); in particular appending K exact copies of
pairwise-distinct original rows yields duplicate count K. -/
theorem duplicated_counts_earlier_occurrences (df : DataFrame)
    (orig dups : List (List Cell))
    (h1 : orig.Nodup) (h2 : ∀ d ∈ dups, d ∈ orig) :
    df.numDuplicados = dupSpecCount df.rows ∧
    duplicatedSum (orig ++ dups) = dups.length := by
  constructor
  · have h := dupMarks_count df.rows []
    simpa [DataFrame.numDuplicados, duplicatedSum, dupSpecCount] using h
  · rw [duplicatedSum, dupMarks_append orig dups [],
      dupMarks_fresh orig [] h1 (by simp),
      dupMarks_seen dups (orig.reverse ++ []) (by simpa using h2),
      List.count_append]
    simp [List.count_replicate]

/-- C3 witness: a 5-row table made of 2 distinct rows plus 3 exact copies
reports 3 duplicates, and the general index characterization holds on
`dfMixed`. -/
theorem duplicated_counts_earlier_occurrences_witness :
    dfMixed.numDuplicados = dupSpecCount dfMixed.rows ∧
    duplicatedSum ([[some "a"], [some "b"]] ++ [[some "b"], [some "a"], [some "b"]]) = 3 := by
  have h := duplicated_counts_earlier_occurrences dfMixed
    [[some "a"], [some "b"]] [[some "b"], [some "a"], [some "b"]]
    (by decide) (by decide)
  exact ⟨h.1, h.2⟩

/-- Helper: membership in the `uniqueFirst` worker. -/
theorem uniqueFirstAux_mem (l : List String) :
    ∀ (seen : List String) (v : String),
      v ∈ uniqueFirstAux seen l ↔ v ∈ l ∧ v ∉ seen := by
  induction l with
  | nil =>
    intro seen v
    simp [uniqueFirstAux]
  | cons x xs ih =>
    intro seen v
    rw [uniqueFirstAux]
    split
    · next hx =>
      rw [ih]
      constructor
      · rintro ⟨h1, h2⟩
        exact ⟨List.mem_cons_of_mem x h1, h2⟩
      · rintro ⟨h1, h2⟩
        rcases List.mem_cons.mp h1 with rfl | h1
        · exact absurd hx h2
        · exact ⟨h1, h2⟩
    · next hx =>
      rw [List.mem_cons, ih]
      constructor
      · rintro (rfl | ⟨h1, h2⟩)
        · exact ⟨List.mem_cons_self _ _, hx⟩
        · exact ⟨List.mem_cons_of_mem x h1, fun hv => h2 (List.mem_cons_of_mem x hv)⟩
      · rintro ⟨h1, h2⟩
        rcases List.mem_cons.mp h1 with rfl | h1
        · exact Or.inl rfl
        · by_cases hvx : v = x
          · exact Or.inl hvx
          · exact Or.inr ⟨h1, by simp [List.mem_cons, hvx, h2]⟩

/-- Helper: the `uniqueFirst` worker never repeats an element. -/
theorem uniqueFirstAux_nodup (l : List String) :
    ∀ seen : List String, (uniqueFirstAux seen l).Nodup := by
  induction l with
  | nil =>
    intro seen
    simp [uniqueFirstAux]
  | cons x xs ih =>
    intro seen
    rw [uniqueFirstAux]
    split
    · exact ih seen
    · refine List.nodup_cons.mpr ⟨?_, ih (x :: seen)⟩
      intro hx
      exact ((uniqueFirstAux_mem xs (x :: seen) x).mp hx).2 (List.mem_cons_self x seen)

/-- Helper: `uniqueFirst` has the same members as its input. -/
theorem uniqueFirst_mem (l : List String) (v : String) : v ∈ uniqueFirst l ↔ v ∈ l := by
  rw [uniqueFirst, uniqueFirstAux_mem]
  simp

/-- Helper: `uniqueFirst` never repeats an element. -/
theorem uniqueFirst_nodup (l : List String) : (uniqueFirst l).Nodup :=
  uniqueFirstAux_nodup l []

/-- Helper: inserting into a list is a permutation of consing. -/
theorem insertByFreq_perm (c : Column) (v : String) (l : List String) :
    insertByFreq c v l ~ v :: l := by
  induction l with
  | nil => exact List.Perm.refl _
  | cons w ws ih =>
    rw [insertByFreq]
    split
    · exact List.Perm.refl _
    · exact (List.Perm.cons w ih).trans (List.Perm.swap v w ws)

/-- Helper: the stable sort permutes its input. -/
theorem sortByFreqDesc_perm (c : Column) (l : List String) : sortByFreqDesc c l ~ l := by
  induction l with
  | nil => exact List.Perm.refl _
  | cons v vs ih =>
    rw [sortByFreqDesc]
    exact (insertByFreq_perm c v _).trans (List.Perm.cons v ih)

/-- Helper: insertion preserves the descending-count ordering. -/
theorem insertByFreq_pairwise (c : Column) (v : String) (l : List String)
    (h : l.Pairwise fun a b => c.freq b ≤ c.freq a) :
    (insertByFreq c v l).Pairwise fun a b => c.freq b ≤ c.freq a := by
  induction l with
  | nil => simp [insertByFreq]
  | cons w ws ih =>
    rw [insertByFreq]
    split
    · next hle =>
      refine List.pairwise_cons.mpr ⟨?_, h⟩
      intro y hy
      rcases List.mem_cons.mp hy with rfl | hy
      · exact hle
      · exact Nat.le_trans ((List.pairwise_cons.mp h).1 y hy) hle
    · next hgt =>
      refine List.pairwise_cons.mpr ⟨?_, ih (List.pairwise_cons.mp h).2⟩
      intro y hy
      rcases List.mem_cons.mp ((insertByFreq_perm c v ws).mem_iff.mp hy) with rfl | hy'
      · exact Nat.le_of_lt (Nat.lt_of_not_le hgt)
      · exact (List.pairwise_cons.mp h).1 y hy'

/-- Helper: the stable sort is sorted by descending count. -/
theorem sortByFreqDesc_pairwise (c : Column) (l : List String) :
    (sortByFreqDesc c l).Pairwise fun a b => c.freq b ≤ c.freq a := by
  induction l with
  | nil => simp [sortByFreqDesc]
  | cons v vs ih =>
    rw [sortByFreqDesc]
    exact insertByFreq_pairwise c v _ ih

/-- Helper: a list is a sublist of any insertion into it. -/
theorem sublist_insertByFreq (c : Column) (v : String) (l : List String) :
    l <+ insertByFreq c v l := by
  induction l with
  | nil => simp [insertByFreq]
  | cons w ws ih =>
    rw [insertByFreq]
    split
    · exact List.sublist_cons_self v _
    · exact List.Sublist.cons₂ w ih

/-- Helper: the inserted element lands before every member whose count
does not exceed it. -/
theorem pair_sublist_insertByFreq (c : Column) (v w : String) (l : List String)
    (hw : w ∈ l) (hle : c.freq w ≤ c.freq v) :
    [v, w] <+ insertByFreq c v l := by
  induction l with
  | nil => cases hw
  | cons x xs ih =>
    rw [insertByFreq]
    split
    · exact List.Sublist.cons₂ v (List.singleton_sublist.mpr hw)
    · next hgt =>
      rcases List.mem_cons.mp hw with rfl | hw'
      · exact absurd hle hgt
      · exact List.Sublist.cons x (ih hw')

/-- Helper: stability of the sort, in pair-sublist form: an element
appearing before another of no larger count stays before it. -/
theorem pair_sublist_sortByFreqDesc (c : Column) (v w : String) (l : List String)
    (h : [v, w] <+ l) (hle : c.freq w ≤ c.freq v) :
    [v, w] <+ sortByFreqDesc c l := by
  induction l with
  | nil => simp at h
  | cons x xs ih =>
    rw [sortByFreqDesc]
    cases h with
    | cons _ h' => exact (ih h').trans (sublist_insertByFreq c x _)
    | cons₂ _ h' =>
      exact pair_sublist_insertByFreq c v w _
        ((sortByFreqDesc_perm c xs).mem_iff.mpr (List.singleton_sublist.mp h')) hle

/-- Helper: a pair-sublist of a duplicate-free list survives `take` as
soon as its second component does. -/
theorem pair_sublist_take {α : Type} {v w : α} :
    ∀ (L : List α) (n : Nat), [v, w] <+ L → L.Nodup → w ∈ L.take n →
      [v, w] <+ L.take n := by
  intro L
  induction L with
  | nil =>
    intro n h _ _
    exact absurd h (by simp)
  | cons x xs ih =>
    intro n h hnd hw
    cases n with
    | zero => simp at hw
    | succ m =>
      rw [List.take_succ_cons] at hw ⊢
      cases h with
      | cons₂ _ h' =>
        have hwx : w ≠ v := by
          intro he
          subst he
          exact (List.nodup_cons.mp hnd).1 (List.singleton_sublist.mp h')
        have hw' : w ∈ xs.take m := by
          rcases List.mem_cons.mp hw with he | hw'
          · exact absurd he hwx
          · exact hw'
        exact List.Sublist.cons₂ v (List.singleton_sublist.mpr hw')
      | cons _ h' =>
        have hwx : w ≠ x := by
          intro he
          subst he
          exact (List.nodup_cons.mp hnd).1 (h'.subset (by simp))
        have hw' : w ∈ xs.take m := by
          rcases List.mem_cons.mp hw with he | hw'
          · exact absurd he hwx
          · exact hw'
        exact List.Sublist.cons x (ih m h' (List.Nodup.of_cons hnd) hw')

/-- C4 counterexample: the only column of `dfBool` is non-numeric with 2 (<20)
distinct values — eligible in the sense of the claim — yet pandas
`select_dtypes` over object/category columns does not select the `bool`
dtype that `read_csv` infers for a True/False column, so the
categorical-distribution chart is absent instead of plotting it. -/
theorem categorical_chart_skips_boolean_column :
    dfBool.cols = [boolCol] ∧
    boolCol.dtype ≠ Dtype.numeric ∧
    boolCol.nunique = 2 ∧
    barrasSpec dfBool = none ∧
    generar_barras_categoricas trivialOracle dfBool = none :=
  ⟨rfl, by decide, by decide, rfl, rfl⟩

/-- C4 (amended): the categorical-distribution chart exists iff some
object/category column with fewer than 20 distinct values exists; it
covers the first at most 6 such columns in original column order
(excluding every column with 20 or more distinct values) on a 2-column
grid with trailing cells hidden; and within each plotted column the bar
order is the top at most 10 distinct values by descending frequency,
ties kept in first-encounter order. -/
theorem barras_eligible_topten :
    (∀ df : DataFrame, barrasSpec df = none ↔ eligibleCols df = []) ∧
    (∀ (df : DataFrame) (s : BarSpec), barrasSpec df = some s →
      s.plots = ((eligibleCols df).take 6).map
        (fun c => (c.name, c.valueCountsIndex.take 10)) ∧
      s.plots.length = min (eligibleCols df).length 6 ∧
      s.nCols = 2 ∧
      s.nRows = (s.plots.length - 1) / 2 + 1 ∧
      s.hidden = s.nRows * s.nCols - s.plots.length ∧
      s.plots.length + s.hidden = s.nRows * s.nCols ∧
      (∀ q ∈ s.plots, ∃ c, c ∈ eligibleCols df ∧ q.1 = c.name ∧
        c.nunique < 20 ∧ q.2 = c.valueCountsIndex.take 10)) ∧
    (∀ c : Column,
      (c.valueCountsIndex.take 10).length = min 10 c.nunique ∧
      (c.valueCountsIndex.take 10).Nodup ∧
      (∀ v ∈ c.valueCountsIndex.take 10, v ∈ c.nonNullValues) ∧
      (c.valueCountsIndex.take 10).Pairwise (fun v w => c.freq w ≤ c.freq v) ∧
      (∀ w ∈ c.distinctValues, w ∉ c.valueCountsIndex.take 10 →
        ∀ v ∈ c.valueCountsIndex.take 10, c.freq w ≤ c.freq v) ∧
      (∀ v w, [v, w] <+ c.distinctValues → c.freq w ≤ c.freq v →
        w ∈ c.valueCountsIndex.take 10 → [v, w] <+ c.valueCountsIndex.take 10)) ∧
    (∀ (r : RenderOracle) (df : DataFrame), eligibleCols df = [] →
      generar_barras_categoricas r df = none) := by
  have hfilter : ∀ df : DataFrame,
      (selectObjectCategory df).filter (fun c => decide (c.nunique < 20)) = eligibleCols df := by
    intro df
    rw [selectObjectCategory, eligibleCols, List.filter_filter]
    exact List.filter_congr fun c _ => by rw [eligible]; exact Bool.and_comm _ _
  have hbs : ∀ df : DataFrame, barrasSpec df =
      if (eligibleCols df).length = 0 then none
      else some { plots := ((eligibleCols df).take 6).map
                    (fun c => (c.name, c.valueCountsIndex.take 10)),
                  nRows := (((eligibleCols df).take 6).length - 1) / 2 + 1,
                  nCols := 2,
                  hidden := ((((eligibleCols df).take 6).length - 1) / 2 + 1) * 2
                    - ((eligibleCols df).take 6).length } := by
    intro df
    simp only [barrasSpec]
    rw [hfilter df]
  refine ⟨?_, ?_, ?_, ?_⟩
  · intro df
    rw [hbs df]
    by_cases h0 : (eligibleCols df).length = 0
    · have hE := List.length_eq_zero.mp h0
      rw [if_pos h0]
      simp [hE]
    · rw [if_neg h0]
      constructor
      · intro h
        cases h
      · intro hE
        exact absurd (by rw [hE]; rfl : (eligibleCols df).length = 0) h0
  · intro df s hss
    rw [hbs df] at hss
    by_cases h0 : (eligibleCols df).length = 0
    · rw [if_pos h0] at hss
      cases hss
    · rw [if_neg h0] at hss
      cases hss
      refine ⟨rfl, ?_, rfl, ?_, ?_, ?_, ?_⟩
      · dsimp only
        rw [List.length_map, List.length_take]
        exact Nat.min_comm _ _
      · dsimp only
        rw [List.length_map]
      · dsimp only
        rw [List.length_map]
      · dsimp only
        rw [List.length_map]
        omega
      · intro q hq
        dsimp only at hq
        rcases List.mem_map.mp hq with ⟨c, hc, rfl⟩
        have hcE : c ∈ eligibleCols df := List.take_subset _ _ hc
        have hel := (List.mem_filter.mp hcE).2
        rw [eligible, Bool.and_eq_true, decide_eq_true_eq] at hel
        exact ⟨c, hcE, rfl, hel.2, rfl⟩
  · intro c
    have hperm : c.valueCountsIndex ~ c.distinctValues := sortByFreqDesc_perm c _
    have hndD : c.distinctValues.Nodup := uniqueFirst_nodup _
    have hnd : c.valueCountsIndex.Nodup := hperm.nodup_iff.mpr hndD
    have hpw : c.valueCountsIndex.Pairwise (fun a b => c.freq b ≤ c.freq a) :=
      sortByFreqDesc_pairwise c _
    refine ⟨?_, ?_, ?_, ?_, ?_, ?_⟩
    · rw [List.length_take, hperm.length_eq]
      rfl
    · exact List.Nodup.sublist (List.take_sublist _ _) hnd
    · intro v hv
      exact (uniqueFirst_mem _ v).mp (hperm.mem_iff.mp (List.take_subset _ _ hv))
    · exact List.Pairwise.sublist (List.take_sublist _ _) hpw
    · intro w hwD hnot v hv
      have hsplit : c.valueCountsIndex.take 10 ++ c.valueCountsIndex.drop 10 =
          c.valueCountsIndex := List.take_append_drop _ _
      have hwTD : w ∈ c.valueCountsIndex.take 10 ++ c.valueCountsIndex.drop 10 := by
        rw [hsplit]
        exact hperm.mem_iff.mpr hwD
      have hwdrop : w ∈ c.valueCountsIndex.drop 10 := by
        rcases List.mem_append.mp hwTD with h | h
        · exact absurd h hnot
        · exact h
      have hpw2 : (c.valueCountsIndex.take 10 ++ c.valueCountsIndex.drop 10).Pairwise
          (fun a b => c.freq b ≤ c.freq a) := by
        rw [hsplit]
        exact hpw
      exact (List.pairwise_append.mp hpw2).2.2 v hv w hwdrop
    · intro v w hvw hle hw
      exact pair_sublist_take _ 10 (pair_sublist_sortByFreqDesc c v w _ hvw hle) hnd hw
  · intro r df h
    have h0 : (eligibleCols df).length = 0 := by rw [h]; rfl
    have hn : barrasSpec df = none := by rw [hbs df, if_pos h0]
    rw [generar_barras_categoricas, hn]

/-- C4 amended witness: on `dfCats` the chart covers the two object
columns; `color` is ordered `rojo` (count 2) before `azul` (count 1) and
the tied values of `talla` keep first-encounter order `S`, `M`. -/
theorem barras_eligible_topten_witness :
    barrasSpec dfCats =
      some { plots := [("color", ["rojo", "azul"]), ("talla", ["S", "M"])],
             nRows := 1, nCols := 2, hidden := 0 } ∧
    (barrasSpec dfCats = none ↔ eligibleCols dfCats = []) ∧
    ([("color", ["rojo", "azul"]), ("talla", ["S", "M"])] : List (String × List String)) =
      ((eligibleCols dfCats).take 6).map (fun c => (c.name, c.valueCountsIndex.take 10)) :=
  ⟨rfl, barras_eligible_topten.1 dfCats, (barras_eligible_topten.2.1 dfCats _ rfl).1⟩

end AnalisisCsv
